/-
Verification of the GBE Box program engine (gbe-micropython).

Shallow embedding of:
  * `lib/application/utils.py`  — `TimeCalculator.time_within_range`,
    `TimeCalculator.date_within_range` (Python string comparison modelled
    explicitly, code-point lexicographic);
  * `lib/application/logic.py`  — `ProgramEngine._determine_desired_conditions`,
    `_evaluate_sensor_condition`, `_extract_conditions`, `_merge_conditions`,
    `_determine_and_apply_conditions`;
  * `lib/gbebox/actuators.py`   — `LightController.rgbw`,
    `LightController.set_rgbw_with_power_target`, `FanController.setting`.

Numbers appearing in program JSON are modelled as `Int` (channel / fan values)
and `Rat` (power values; the source uses MicroPython floats — the claims
settled here concern control flow and value propagation, not float rounding).
Python `None` is modelled by `Option`, a raised exception that the source does
not catch is modelled by an `Option`-`none` result, and a caught exception by
the value the `except` clause produces.
-/
import Mathlib

namespace GbeBox

/-! ### Python string comparison

Python compares strings lexicographically by code point.  `time_within_range`
and `date_within_range` compare `"HH:MM:SS"` / `"YYYY-MM-DD"` strings with
`<`, `<=` and `>`, so we embed the comparison exactly. -/

/-- Python `<` on strings, as code-point lexicographic order on the
character lists. -/
def pyCharsLt : List Char → List Char → Bool
  | [], [] => false
  | [], _ :: _ => true
  | _ :: _, [] => false
  | x :: xs, y :: ys => decide (x < y) || (x == y && pyCharsLt xs ys)

/-- Python `<` on strings. -/
def pyStrLt (a b : String) : Bool := pyCharsLt a.data b.data

/-- Python `<=` on strings: lexicographically less, or equal (string equality
is equality of the character sequences). -/
def pyStrLe (a b : String) : Bool := pyStrLt a b || a.data == b.data

/-- Python `str.split(sep)` for a one-character separator: splitting the empty
string gives `[""]`, consecutive separators give empty fields. -/
def pySplit (sep : Char) : List Char → List (List Char)
  | [] => [[]]
  | c :: rest =>
      let r := pySplit sep rest
      if c = sep then [] :: r
      else
        match r with
        | p :: ps => (c :: p) :: ps
        | [] => [[c]]

/-- Python `f"{s:0>2}"`: left-pad with `'0'` to a minimum width of two. -/
def pad2 (s : List Char) : List Char :=
  if 2 ≤ s.length then s else List.replicate (2 - s.length) '0' ++ s

/-- `normalize_time` from `TimeCalculator.time_within_range`
(`lib/application/utils.py`): split on `":"`, default missing minute/second
fields to `"00"`, zero-pad each field to two characters, and rejoin with
`":"`. -/
def normalizeTime (t : String) : String :=
  let parts := pySplit ':' t.data
  let h := parts.getD 0 ['0', '0']
  let m := parts.getD 1 ['0', '0']
  let s := parts.getD 2 ['0', '0']
  ⟨pad2 h ++ ':' :: pad2 m ++ ':' :: pad2 s⟩

/-- `TimeCalculator.time_within_range` (`lib/application/utils.py`), with the
clock reading passed in: the source formats the current local time as
`f"{hours:0>2}:{minutes:0>2}:{seconds:0>2}"` and that formatted string is the
`cur` argument here.  For `start > end` (an overnight window) the source
returns `not (end < cur < start)`; otherwise `start <= cur <= end`. -/
def time_within_range (cur startT endT : String) : Bool :=
  let s := normalizeTime startT
  let e := normalizeTime endT
  if pyStrLt e s then
    !(pyStrLt e cur && pyStrLt cur s)
  else
    pyStrLe s cur && pyStrLe cur e

/-- `TimeCalculator.date_within_range` (`lib/application/utils.py`):
`start <= current` when `end_date` is `None`, otherwise
`start <= current <= end`. -/
def date_within_range (current startD : String) (endD : Option String) : Bool :=
  match endD with
  | none => pyStrLe startD current
  | some e => pyStrLe startD current && pyStrLe current e

/-! ### Program JSON data model (`lib/application/logic.py`)

An action dict may carry any subset of the keys `red`, `green`, `blue`,
`white`, `fan`, `target_watts`; a missing key is `none`. -/

/-- One action dict from a program's `actions` / `default_actions` list. -/
structure Action where
  red : Option Int := none
  green : Option Int := none
  blue : Option Int := none
  white : Option Int := none
  fan : Option Int := none
  target_watts : Option Rat := none
deriving DecidableEq, Repr

/-- The `desired` dict built by `_determine_desired_conditions`:
`{"rgbw": [r, g, b, w], "fan": f, "target_watts": t}` where each list entry
and each of `f`, `t` may be Python `None`.  The `rgbw` value is always a
Python *list* in the source (this matters for `_determine_and_apply_conditions`,
see `pyListNeTuple` below). -/
structure Conditions where
  rgbw : List (Option Int)
  fan : Option Int
  target_watts : Option Rat
deriving DecidableEq, Repr

/-- The `condition` dict of a sensor loop. -/
structure SensorCondition where
  sensor : Option String := none
  comparison : Option String := none
  value : Option Rat := none
deriving DecidableEq, Repr

/-- `ProgramEngine._extract_conditions`: fold over the action list; for each
rgbw channel `action.get(key, previous)` keeps the previous value when the key
is absent, `fan` / `target_watts` are overwritten when the key is present. -/
def extractConditions (actions : List Action) : Conditions :=
  let step := fun (c : Conditions) (a : Action) =>
    { rgbw := [if (a.red).isSome then a.red else c.rgbw.getD 0 none,
               if (a.green).isSome then a.green else c.rgbw.getD 1 none,
               if (a.blue).isSome then a.blue else c.rgbw.getD 2 none,
               if (a.white).isSome then a.white else c.rgbw.getD 3 none]
      fan := if (a.fan).isSome then a.fan else c.fan
      target_watts := if (a.target_watts).isSome then a.target_watts else c.target_watts }
  actions.foldl step { rgbw := [none, none, none, none], fan := none, target_watts := none }

/-- `ProgramEngine._merge_conditions`: overwrite each rgbw entry that the new
conditions set (the list is only rebuilt when at least one entry is set, which
is observationally the same), and overwrite `fan` / `target_watts` when not
`None` in the new conditions. -/
def mergeConditions (cur new : Conditions) : Conditions :=
  let rgbw :=
    if (List.range 4).any (fun i => (new.rgbw.getD i none).isSome) then
      (List.range 4).map fun i =>
        match new.rgbw.getD i none with
        | some v => some v
        | none => cur.rgbw.getD i none
    else cur.rgbw
  { rgbw := rgbw
    fan := match new.fan with | some v => some v | none => cur.fan
    target_watts := match new.target_watts with | some v => some v | none => cur.target_watts }

/-- The starting `desired` of `_determine_desired_conditions`: built from the
program's `default_actions` when that list is non-empty, otherwise the literal
`{"rgbw": [0, 0, 0, 0], "fan": 0, "target_watts": None}`. -/
def initialDesired (defaultActions : List Action) : Conditions :=
  if defaultActions.isEmpty then
    { rgbw := [some 0, some 0, some 0, some 0], fan := some 0, target_watts := none }
  else extractConditions defaultActions

/-- `ProgramEngine._evaluate_sensor_condition`, body inside the `try`.
`sensorEnv name` is `getattr(sensor, name, None)` followed by calling the
sensor function: `none` means the attribute is missing, `some none` a reading
of `None`, `some (some v)` a numeric reading.  A `.error` result is a raised
exception (the comparison of a reading with a `None` threshold raises
`TypeError` in MicroPython). -/
def evalSensorBody (sensorEnv : String → Option (Option Rat))
    (condition : Option SensorCondition) (actions : List Action) :
    Except String (Bool × List Action) :=
  match condition with
  | none => .ok (false, [])
  | some c =>
    match c.sensor with
    | none => .ok (false, [])
    | some name =>
      if name = "" then .ok (false, [])
      else
        match sensorEnv name with
        | none => .ok (false, [])
        | some reading =>
          match reading with
          | none => .ok (false, [])
          | some v =>
            if c.comparison = some "<" then
              match c.value with
              | none => .error "TypeError"
              | some t => if v < t then .ok (true, actions) else .ok (false, [])
            else if c.comparison = some ">=" then
              match c.value with
              | none => .error "TypeError"
              | some t => if t ≤ v then .ok (true, actions) else .ok (false, [])
            else .ok (false, [])

/-- `ProgramEngine._evaluate_sensor_condition`: the surrounding
`try`/`except` turns any raised exception into `(False, [])`. -/
def evalSensorCondition (sensorEnv : String → Option (Option Rat))
    (condition : Option SensorCondition) (actions : List Action) :
    Bool × List Action :=
  match evalSensorBody sensorEnv condition actions with
  | .ok r => r
  | .error _ => (false, [])

/-! ### Loops and the resolver

A loop dict has a `type` of `"sensor"`, `"time"` or `"date_range"` (any other
type is skipped).  `time` / `date_range` loops may carry a nested `loops`
key.  A `loops` *list* is modelled as a single inductive whose cons cells
carry the loop's payload, so the resolver can recurse structurally (its
equations are then definitional): `consTime startT endT actions hasNested
nested rest` is the Python list whose head is
`{"type": "time", "start": startT, "end": endT, "actions": actions,
  "loops": nested}` (the `"loops"` key present iff `hasNested = true`;
with `hasNested = false` the `nested` argument is ignored and conventionally
`.nil`) and whose tail is `rest`. -/

/-- A `loops` list from the program JSON, with each element's payload fused
into its cons cell. -/
inductive LoopTree where
  | nil : LoopTree
  | consSensor (condition : Option SensorCondition) (actions : List Action)
      (rest : LoopTree) : LoopTree
  | consTime (startT endT : Option String) (actions : List Action)
      (hasNested : Bool) (nested : LoopTree) (rest : LoopTree) : LoopTree
  | consDate (startD : Option String) (endD : Option String) (actions : List Action)
      (hasNested : Bool) (nested : LoopTree) (rest : LoopTree) : LoopTree
  | consOther (rest : LoopTree) : LoopTree
deriving DecidableEq, Repr

/-- The `for loop in loops` fold of
`ProgramEngine._determine_desired_conditions`
(`lib/application/logic.py`, lines 131-177).  `sensors` is the sensor-reading
environment, `now` the formatted current local time (`"HH:MM:SS"`), `today`
the formatted current local date (the value of `calc.current_date()`).
Takes and returns the pair of the running `desired` conditions and
`self.cached_sensor_conditions`.
Note that a matched `time` / `date_range` loop with a `loops` key *replaces*
`desired` by the nested resolution, which itself restarts from
`initialDesired` (the recursive call re-reads
`self.program_json["settings"].get("default_actions", [])`); the parent's
merged `desired` is computed and then discarded. -/
def resolveLoops (df : List Action) (sensors : String → Option (Option Rat))
    (now today : String) (checkSensors : Bool) :
    LoopTree → Conditions → Option Conditions → Conditions × Option Conditions
  | .nil, desired, cache => (desired, cache)
  | .consSensor condition actions rest, desired, cache =>
      let r :=
        if checkSensors then
          match evalSensorCondition sensors condition actions with
          | (true, acts) =>
              let sc := extractConditions acts
              (mergeConditions desired sc, some sc)
          | (false, _) => (desired, none)
        else
          match cache with
          | some sc => (mergeConditions desired sc, cache)
          | none => (desired, cache)
      resolveLoops df sensors now today checkSensors rest r.1 r.2
  | .consTime startT endT actions hasNested nested rest, desired, cache =>
      let r :=
        if time_within_range now (startT.getD "00:00") (endT.getD "23:59") then
          let merged := mergeConditions desired (extractConditions actions)
          if hasNested then
            resolveLoops df sensors now today checkSensors nested (initialDesired df) cache
          else (merged, cache)
        else (desired, cache)
      resolveLoops df sensors now today checkSensors rest r.1 r.2
  | .consDate startD endD actions hasNested nested rest, desired, cache =>
      let r :=
        if date_within_range today (startD.getD today) endD then
          let merged := mergeConditions desired (extractConditions actions)
          if hasNested then
            resolveLoops df sensors now today checkSensors nested (initialDesired df) cache
          else (merged, cache)
        else (desired, cache)
      resolveLoops df sensors now today checkSensors rest r.1 r.2
  | .consOther rest, desired, cache =>
      resolveLoops df sensors now today checkSensors rest desired cache

/-- `ProgramEngine._determine_desired_conditions`: start from the program's
`default_actions` (or the all-zero literal) and fold over the loops, threading
`self.cached_sensor_conditions`.  The source's `current_rgbw` / `current_fan`
parameters are accepted and never used, so they are omitted here. -/
def determineDesired (df : List Action) (sensors : String → Option (Option Rat))
    (now today : String) (checkSensors : Bool)
    (loops : LoopTree) (cache : Option Conditions) : Conditions × Option Conditions :=
  resolveLoops df sensors now today checkSensors loops (initialDesired df) cache

/-! ### Actuators (`lib/gbebox/actuators.py`) -/

/-- Python `int()` truncation toward zero on a rational: `Int.div` is
t-division, which truncates toward zero, matching CPython/MicroPython
`int(float)`. -/
def pyInt (q : Rat) : Int :=
  q.num.tdiv (q.den : Int)

/-- Python `abs()` on a rational. -/
def ratAbs (q : Rat) : Rat :=
  if q < 0 then -q else q

/-- `int(min(limit, max(0, value)))` from the channel setters
(`LightController.red` / `green` / `blue` / `white`): the duty register holds
`clamped * 256` and reading a channel returns `round(duty / 256) = clamped`. -/
def clampChan (limit : Nat) (v : Int) : Nat :=
  (min (limit : Int) (max 0 v)).toNat

/-- The observable hardware actions a tick can perform: a `duty_u16` write to
the light channels (one `LightController.rgbw` call with at least one
non-`None` argument), a fan `duty_u16` write, a `sensor.voltage()` call, and a
`sensor.power()` call. -/
inductive Effect where
  | lightWrite (r g b w : Option Int) : Effect
  | fanWrite (v : Nat) : Effect
  | readVoltage : Effect
  | readPower : Effect
deriving DecidableEq, Repr

/-- How `set_rgbw_with_power_target` can fail; each constructor stands for the
source's error string:
`invalidTarget` — `'Target watts must be positive'`;
`targetTooLow` — `'Target watts too low for reliable power measurement (minimum 2W)'`;
`insufficientSupply` — `'Insufficient voltage for power control: ...V (need >20V)'`;
`powerSensorUnavailable` — `'Power sensor not available, using PWM-only control'`;
`noValidReading i` — `'Unable to get valid power reading after multiple attempts on iteration i'`;
`hardwareLimit` — `'Hardware limits reached, cannot achieve ...W'`;
`maxIterations m` — `'Max iterations (m) reached without convergence'`. -/
inductive ConvergeError where
  | invalidTarget : ConvergeError
  | targetTooLow : ConvergeError
  | insufficientSupply : ConvergeError
  | powerSensorUnavailable : ConvergeError
  | noValidReading (iteration : Nat) : ConvergeError
  | hardwareLimit : ConvergeError
  | maxIterations (m : Nat) : ConvergeError
deriving DecidableEq, Repr

/-- The result dict of `set_rgbw_with_power_target`; a key absent from a
particular return site is `none`. -/
structure ConvergeResult where
  success : Bool
  error : Option ConvergeError := none
  iterations : Option Nat := none
  final_rgbw : Option Int × Option Int × Option Int × Option Int
  actual_power : Option Rat := none
  target_power : Option Rat := none
  power_diff : Option Rat := none
  max_possible_power : Option Rat := none
deriving DecidableEq, Repr

/-- The state of the `LightController` singleton: the four clamped channel
values currently in the duty registers, and the power-control memo
`_last_power_target` / `_last_power_result`. -/
structure LightState where
  r : Nat
  g : Nat
  b : Nat
  w : Nat
  lastPowerTarget : Option Rat
  lastPowerResult : Option ConvergeResult
deriving DecidableEq, Repr

/-- `LightController.rgbw(r, g, b, w)`: set each channel whose argument is not
`None` (clamped to that channel's hardware limit 160/71/75/117), and clear the
power-control memo when at least one argument is not `None`.  The returned
effect list records the write. -/
def lightRgbw (st : LightState) (r g b w : Option Int) : LightState × List Effect :=
  let st1 : LightState :=
    { st with
      r := match r with | some v => clampChan 160 v | none => st.r
      g := match g with | some v => clampChan 71 v | none => st.g
      b := match b with | some v => clampChan 75 v | none => st.b
      w := match w with | some v => clampChan 117 v | none => st.w }
  if r.isSome || g.isSome || b.isSome || w.isSome then
    ({ st1 with lastPowerTarget := none, lastPowerResult := none },
     [Effect.lightWrite r g b w])
  else (st1, [])

/-- `FanController.setting(speed)`: `None` only reads the current value, a
number is clamped to `0..255` and written. -/
def fanSetting (cur : Nat) (speed : Option Int) : Nat × List Effect :=
  match speed with
  | none => (cur, [])
  | some s =>
      let c := (min (255 : Int) (max 0 s)).toNat
      (c, [Effect.fanWrite c])

/-- The sensor environment a `set_rgbw_with_power_target` call runs against:
the supply voltage reading, the initial `sensor.power()` probe, and the power
reading obtained at loop iteration `it`, attempt `j` (`none` stands for a
`None` reading or a raised-and-caught exception). -/
structure PowerEnv where
  voltage : Option Rat
  initialPower : Option Rat
  readings : Nat → Nat → Option Rat

/-- The memo short-circuit test at the top of `set_rgbw_with_power_target`
(also re-checked by `_determine_and_apply_conditions` before calling):
`self._last_power_target == target_watts and self._last_power_result is not
None and self._last_power_result.get('success', False)`. -/
def memoHit (st : LightState) (target : Rat) : Bool :=
  decide (st.lastPowerTarget = some target) &&
    match st.lastPowerResult with
    | some res => res.success
    | none => false

/-- The up-to-three-attempt measurement block at the top of each convergence
iteration: the first attempt whose reading is not `None` and positive wins;
returns the reading found (if any) and the number of `sensor.power()` calls
made. -/
def measureLoop (env : PowerEnv) (it : Nat) : List Nat → Option Rat × Nat
  | [] => (none, 0)
  | j :: js =>
      match env.readings it j with
      | some p =>
          if 0 < p then (some p, 1)
          else
            let r := measureLoop env it js
            (r.1, r.2 + 1)
      | none =>
          let r := measureLoop env it js
          (r.1, r.2 + 1)

/-- `for attempt in range(3)` measurement. -/
def measurePower (env : PowerEnv) (it : Nat) : Option Rat × Nat :=
  measureLoop env it [0, 1, 2]

/-- `min(limit, max(0, int(current * scale_factor)))`: the per-channel scaling
of one convergence iteration.  `current` is the raw Python variable (the
original argument on the first iteration), not the clamped hardware value. -/
def scaleChan (limit : Nat) (current : Int) (sf : Rat) : Int :=
  min (limit : Int) (max 0 (pyInt ((current : Rat) * sf)))

/-- The `target_watts <= 0` failure dict. -/
def invalidTargetResult (r g b w : Int) : ConvergeResult :=
  { success := false, error := some .invalidTarget,
    final_rgbw := (some r, some g, some b, some w), actual_power := some 0 }

/-- The `target_watts < 2` failure dict. -/
def tooLowResult (r g b w : Int) : ConvergeResult :=
  { success := false, error := some .targetTooLow,
    final_rgbw := (some r, some g, some b, some w), actual_power := some 0 }

/-- The `voltage is None or voltage < 20` failure dict. -/
def insufficientResult (r g b w : Int) : ConvergeResult :=
  { success := false, error := some .insufficientSupply,
    final_rgbw := (some r, some g, some b, some w), actual_power := none }

/-- The `initial_power is None` failure dict. -/
def sensorUnavailableResult (r g b w : Int) : ConvergeResult :=
  { success := false, error := some .powerSensorUnavailable,
    final_rgbw := (some r, some g, some b, some w), actual_power := none }

/-- The no-valid-reading failure dict of iteration `it` (0-based; the message
reports `it + 1`).  It carries no `iterations` key. -/
def noReadingResult (it : Nat) (cr cg cb cw : Int) : ConvergeResult :=
  { success := false, error := some (.noValidReading (it + 1)),
    final_rgbw := (some cr, some cg, some cb, some cw), actual_power := none }

/-- The within-tolerance success dict of iteration `it` (0-based), also stored
in the memo. -/
def successResult (it : Nat) (cr cg cb cw : Int) (p target : Rat) : ConvergeResult :=
  { success := true, iterations := some (it + 1),
    final_rgbw := (some cr, some cg, some cb, some cw),
    actual_power := some p, target_power := some target,
    power_diff := some (ratAbs (p - target)) }

/-- The hardware-limit failure dict: the scaled-and-clamped channel values are
identical to the current ones, so the last measured power is reported as the
practical maximum. -/
def hwLimitResult (it : Nat) (cr cg cb cw : Int) (p target : Rat) : ConvergeResult :=
  { success := false, error := some .hardwareLimit, iterations := some (it + 1),
    final_rgbw := (some cr, some cg, some cb, some cw),
    actual_power := some p, target_power := some target,
    max_possible_power := some p }

/-- The fell-off-the-loop failure dict, built from the last iteration's
measured power. -/
def maxIterResult (maxIter : Nat) (cr cg cb cw : Int) (ap target : Rat) : ConvergeResult :=
  { success := false, error := some (.maxIterations maxIter), iterations := some maxIter,
    final_rgbw := (some cr, some cg, some cb, some cw),
    actual_power := some ap, target_power := some target,
    power_diff := some (ratAbs (ap - target)) }

/-- The `for iteration in range(max_iterations)` loop of
`set_rgbw_with_power_target` (`lib/gbebox/actuators.py`, lines 194-270).
`it` is the iteration index, `fuel` the remaining iterations
(`maxIter - it`), and `lastPower` the previous iteration's `actual_power`
variable (`none` before the first iteration; the final fell-off-the-loop
return reads it, so with `max_iterations = 0` the source would raise
`NameError`, modelled by the overall `none`).  Channel variables are the raw
Python ints, clamping happens inside `lightRgbw` and in `scaleChan`. -/
def convergeLoop (env : PowerEnv) (target tol : Rat) (maxIter : Nat) :
    LightState → Int → Int → Int → Int → Nat → Option Rat → Nat →
    Option ConvergeResult × LightState × List Effect
  | st, cr, cg, cb, cw, _it, lastPower, 0 =>
      match lastPower with
      | some ap => (some (maxIterResult maxIter cr cg cb cw ap target), st, [])
      | none => (none, st, [])
  | st, cr, cg, cb, cw, it, _lastPower, fuel + 1 =>
      let m := measurePower env it
      let meff := List.replicate m.2 Effect.readPower
      match m.1 with
      | none => (some (noReadingResult it cr cg cb cw), st, meff)
      | some p =>
          if ratAbs (p - target) ≤ tol then
            let res := successResult it cr cg cb cw p target
            (some res,
             { st with lastPowerTarget := some target, lastPowerResult := some res },
             meff)
          else
            if 0 < p then
              let sf := target / p
              let nr := scaleChan 160 cr sf
              let ng := scaleChan 71 cg sf
              let nb := scaleChan 75 cb sf
              let nw := scaleChan 117 cw sf
              if nr = cr ∧ ng = cg ∧ nb = cb ∧ nw = cw then
                (some (hwLimitResult it cr cg cb cw p target), st, meff)
              else
                let wr := lightRgbw st (some nr) (some ng) (some nb) (some nw)
                let rest := convergeLoop env target tol maxIter wr.1 nr ng nb nw (it + 1) (some p) fuel
                (rest.1, rest.2.1, meff ++ wr.2 ++ rest.2.2)
            else
              let rest := convergeLoop env target tol maxIter st cr cg cb cw (it + 1) (some p) fuel
              (rest.1, rest.2.1, meff ++ rest.2.2)

/-- `LightController.set_rgbw_with_power_target` (`lib/gbebox/actuators.py`).
Returns the Python return value (`none` is Python `None`: the memo
short-circuit returns `self._last_power_result` *after* `self.rgbw(...)` has
cleared it), the new controller state, and the trace of hardware effects. -/
def converge (st : LightState) (env : PowerEnv) (r g b w : Int) (target tol : Rat)
    (maxIter : Nat) : Option ConvergeResult × LightState × List Effect :=
  if memoHit st target then
    match st.lastPowerResult with
    | some res =>
        let wr := lightRgbw st res.final_rgbw.1 res.final_rgbw.2.1
          res.final_rgbw.2.2.1 res.final_rgbw.2.2.2
        (wr.1.lastPowerResult, wr.1, wr.2)
    | none => (none, st, [])
  else if target ≤ 0 then
    (some (invalidTargetResult r g b w), st, [])
  else if target < 2 then
    (some (tooLowResult r g b w), st, [])
  else
    match env.voltage with
    | none =>
        let wr := lightRgbw st (some r) (some g) (some b) (some w)
        (some (insufficientResult r g b w), wr.1, Effect.readVoltage :: wr.2)
    | some v =>
        if v < 20 then
          let wr := lightRgbw st (some r) (some g) (some b) (some w)
          (some (insufficientResult r g b w), wr.1, Effect.readVoltage :: wr.2)
        else
          match env.initialPower with
          | none =>
              let wr := lightRgbw st (some r) (some g) (some b) (some w)
              (some (sensorUnavailableResult r g b w), wr.1,
               [Effect.readVoltage, Effect.readPower] ++ wr.2)
          | some _ =>
              let wr := lightRgbw st (some r) (some g) (some b) (some w)
              let rest := convergeLoop env target tol maxIter wr.1 r g b w 0 none maxIter
              (rest.1, rest.2.1,
               [Effect.readVoltage, Effect.readPower] ++ wr.2 ++ rest.2.2)

/-! ### Applying a resolved tick (`_determine_and_apply_conditions`) -/

/-- Python `!=` between the resolver's `desired["rgbw"]` value and
`light.rgbw()`'s return value (`lib/application/logic.py`, line 112).
`desired["rgbw"]` is always a Python `list` (built at lines 126/128 and only
rebuilt as a `list` by `_merge_conditions`), while `LightController.rgbw`
returns a `tuple` (line 97 of `lib/gbebox/actuators.py`).  In Python
`list.__eq__(tuple)` and `tuple.__eq__(list)` are both `NotImplemented`, so
`==` between them is always `False` and `!=` is always `True`, whatever the
elements. -/
def pyListNeTuple (_desired : List (Option Int)) (_current : Nat × Nat × Nat × Nat) : Bool :=
  true

/-- Python `desired["fan"] != current_fan`: `None` compared with an int is
unequal; two ints compare by value. -/
def pyFanNe (desired : Option Int) (current : Nat) : Bool :=
  match desired with
  | none => true
  | some v => decide (v ≠ (current : Int))

/-- The fan step at the end of `_determine_and_apply_conditions`
(lines 116-117): write the fan only when `desired["fan"] != current_fan`
(a `None` desired fan passes the `!=` test but `FanController.setting(None)`
performs no write). -/
def applyFan (st : LightState) (fanV : Nat) (desired : Conditions)
    (eff : List Effect) : Option (LightState × Nat × List Effect) :=
  if pyFanNe desired.fan fanV then
    let fr := fanSetting fanV desired.fan
    some (st, fr.1, eff ++ fr.2)
  else some (st, fanV, eff)

/-- `ProgramEngine._determine_and_apply_conditions`
(`lib/application/logic.py`, lines 73-117), after the desired conditions have
been resolved.  Returns `none` where the source would raise an uncaught
exception (unpacking a `desired["rgbw"]` that is not a 4-element list, or
power arithmetic on a `None` channel).  The effect trace records every
hardware write and sensor read the tick performs. -/
def applyConditions (desired : Conditions) (st : LightState) (fanV : Nat)
    (penv : PowerEnv) : Option (LightState × Nat × List Effect) :=
  let currentRgbw := (st.r, st.g, st.b, st.w)
  match desired.target_watts with
  | some tw =>
      match desired.rgbw with
      | [r?, g?, b?, w?] =>
          if memoHit st tw then
            applyFan st fanV desired []
          else
            match r?, g?, b?, w? with
            | some r, some g, some b, some w =>
                match converge st penv r g b w tw (1/2) 5 with
                | (some res, st1, e1) =>
                    if res.success then applyFan st1 fanV desired e1
                    else
                      let wr := lightRgbw st1 r? g? b? w?
                      applyFan wr.1 fanV desired (e1 ++ wr.2)
                | (none, _, _) => none
            | _, _, _, _ => none
      | _ => none
  | none =>
      if pyListNeTuple desired.rgbw currentRgbw then
        match desired.rgbw with
        | [r?, g?, b?, w?] =>
            let wr := lightRgbw st r? g? b? w?
            applyFan wr.1 fanV desired wr.2
        | _ => none
      else applyFan st fanV desired []

/-! ### Derived predicates and concrete inputs used by the theorems -/

/-- A fully populated resolved state: the rgbw list has exactly four entries,
none of them Python `None`, and the fan value is not `None`. -/
def populatedB (c : Conditions) : Bool :=
  c.rgbw.length == 4 && c.rgbw.all Option.isSome && c.fan.isSome

/-- Any successful result remembered in the power memo was stored by the
within-tolerance branch of `set_rgbw_with_power_target`, which runs only
after the `target_watts < 2` guard; reachable controller states therefore
satisfy this invariant. -/
def MemoInv (st : LightState) : Prop :=
  ∀ (t : Rat) (res : ConvergeResult),
    st.lastPowerTarget = some t → st.lastPowerResult = some res →
      res.success = true → 2 ≤ t

/-- The sensor environment for the C1 evaluation (no sensors). -/
def c1Sensors : String → Option (Option Rat) := fun _ => none

/-- The C1 program's loops: a 14:00–16:00 time rule (`red := 100`) with a
nested 14:30–15:30 child rule (`blue := 50`). -/
def c1Loops : LoopTree :=
  .consTime (some "14:00") (some "16:00") [{ red := some 100 }] true
    (.consTime (some "14:30") (some "15:30") [{ blue := some 50 }] false .nil .nil)
    .nil

/-- The sensor environment for the C2 counterexample: `temperature` reads 30,
`humidity` reads 40. -/
def c2Sensors : String → Option (Option Rat) := fun n =>
  if n = "temperature" then some (some 30)
  else if n = "humidity" then some (some 40)
  else none

/-- Two sensor rules: rule 1 (`temperature >= 25`, sets `red := 100`)
matches, rule 2 (`humidity < 20`, sets `green := 50`) does not. -/
def c2Loops : LoopTree :=
  .consSensor
    (some { sensor := some "temperature", comparison := some ">=", value := some 25 })
    [{ red := some 100 }]
    (.consSensor
      (some { sensor := some "humidity", comparison := some "<", value := some 20 })
      [{ green := some 50 }]
      .nil)

/-- A light controller holding channels `(8, 0, 24, 92)` with no memo. -/
def cleanState : LightState :=
  { r := 8, g := 0, b := 24, w := 92, lastPowerTarget := none, lastPowerResult := none }

/-- A light controller holding channels `(8, 0, 24, 92)` whose memo remembers
a successful convergence to 10 W at those channel values. -/
def memoState : LightState :=
  { r := 8, g := 0, b := 24, w := 92, lastPowerTarget := some 10,
    lastPowerResult := some (successResult 0 8 0 24 92 10 10) }

/-- A power environment whose supply voltage reads 15 V (below the 20 V
minimum) and whose power sensor reads 5 W. -/
def lowVoltEnv : PowerEnv :=
  { voltage := some 15, initialPower := some 5, readings := fun _ _ => some 5 }

/-- A healthy power environment: 24 V supply, every power reading 5 W. -/
def steadyEnv : PowerEnv :=
  { voltage := some 24, initialPower := some 5, readings := fun _ _ => some 5 }

/-- What claim C6 asserts of a `set_rgbw_with_power_target` call that passed
the up-front preconditions: (1) the call returns exactly one result, which is
success or one of the three loop-terminal failures, and any reported
iteration count is at most `max_iterations`; (2) whenever an iteration's
scaled-and-clamped channel values are identical to the current ones, the loop
stops right there with the hardware-limit failure, reporting that iteration's
measured power — so an unreachable target can never loop forever. -/
def C6Conclusion (st : LightState) (env : PowerEnv) (r g b w : Int)
    (target tol : Rat) (maxIter : Nat) : Prop :=
  (∃ res : ConvergeResult,
      (converge st env r g b w target tol maxIter).1 = some res ∧
      (res.success = true ∨
        (∃ i, res.error = some (.noValidReading i)) ∨
        res.error = some .hardwareLimit ∨
        res.error = some (.maxIterations maxIter)) ∧
      (∀ k, res.iterations = some k → k ≤ maxIter)) ∧
  (∀ (st' : LightState) (cr cg cb cw : Int) (it fuel : Nat) (lp : Option Rat)
      (p : Rat) (n : Nat),
    measurePower env it = (some p, n) → ¬ ratAbs (p - target) ≤ tol → 0 < p →
    scaleChan 160 cr (target / p) = cr → scaleChan 71 cg (target / p) = cg →
    scaleChan 75 cb (target / p) = cb → scaleChan 117 cw (target / p) = cw →
    convergeLoop env target tol maxIter st' cr cg cb cw it lp (fuel + 1)
      = (some (hwLimitResult it cr cg cb cw p target), st',
         List.replicate n Effect.readPower))

/-! ### Helper lemmas -/

/-- Totality of the Python string order: when `a < b` fails, either `b < a`
or the strings are equal. -/
theorem pyCharsLt_total : ∀ a b : List Char, pyCharsLt a b = false →
    pyCharsLt b a = true ∨ a = b
  | [], [], _ => .inr rfl
  | [], _ :: _, h => by simp [pyCharsLt] at h
  | _ :: _, [], _ => .inl rfl
  | x :: xs, y :: ys, h => by
      simp only [pyCharsLt, Bool.or_eq_false_iff, Bool.and_eq_false_iff,
        decide_eq_false_iff_not, beq_eq_false_iff_ne, ne_eq] at h
      obtain ⟨hxy, hrest⟩ := h
      rcases lt_trichotomy x y with hlt | heq | hgt
      · exact absurd hlt hxy
      · subst heq
        rcases hrest with hne | hr
        · exact absurd rfl hne
        · rcases pyCharsLt_total xs ys hr with ih | ih
          · left
            simp [pyCharsLt, ih]
          · right
            rw [ih]
      · left
        simp [pyCharsLt, hgt]

theorem pyCharsLt_self (a : List Char) : pyCharsLt a a = false := by
  induction a with
  | nil => rfl
  | cons x xs ih => simp [pyCharsLt, ih]

theorem pyStrLe_self (a : String) : pyStrLe a a = true := by
  simp [pyStrLe]

theorem pyStrLe_of_not_lt {a b : String} (h : pyStrLt b a = false) :
    pyStrLe a b = true := by
  rcases pyCharsLt_total b.data a.data h with hlt | heq
  · simp [pyStrLe, pyStrLt, hlt]
  · simp [pyStrLe, heq]

/-! ### Claim C8 — overnight time windows -/

/-- Counterexample to C8: the claim says a current time exactly equal to
`end` is *outside* an overnight window, but
`time_within_range("22:00", "06:00")` at current time `06:00:00` returns
`True`: the source excludes only the *open* interval `(end, start)`. -/
theorem c8_end_time_inside_overnight_window :
    time_within_range "06:00:00" "22:00" "06:00" = true := by decide

/-- C8 (amended): for every overnight window (`start > end` after
normalisation), the current time matches exactly when it is outside the
*open* interval `(end, start)`; in particular `22:00`–`06:00` matches at
`23:00` and `02:00` and not at `12:00`, and both endpoints themselves
match. -/
theorem c8_overnight_window_is_outside_open_interval
    (startT endT cur : String)
    (h : pyStrLt (normalizeTime endT) (normalizeTime startT) = true) :
    time_within_range cur startT endT = true ↔
      ¬(pyStrLt (normalizeTime endT) cur = true ∧
        pyStrLt cur (normalizeTime startT) = true) := by
  simp only [time_within_range, h, if_true]
  cases hA : pyStrLt (normalizeTime endT) cur <;>
    cases hB : pyStrLt cur (normalizeTime startT) <;> simp

/-- Witness for C8's amended theorem at the spec's own example: the window
`22:00`–`06:00` is overnight and matches at `23:00`. -/
theorem c8_overnight_window_witness :
    pyStrLt (normalizeTime "06:00") (normalizeTime "22:00") = true ∧
      (time_within_range "23:00:00" "22:00" "06:00" = true ↔
        ¬(pyStrLt (normalizeTime "06:00") "23:00:00" = true ∧
          pyStrLt "23:00:00" (normalizeTime "22:00") = true)) :=
  ⟨by decide, c8_overnight_window_is_outside_open_interval "22:00" "06:00" "23:00:00" (by decide)⟩

/-! ### Claim C9 — inclusive endpoints of a non-overnight window -/

/-- C9: for every non-overnight window (`start <= end` after normalisation)
the check is inclusive at both endpoints: a current time equal to the
normalised start or to the normalised end is inside the window. -/
theorem c9_non_overnight_window_inclusive_endpoints (startT endT : String)
    (h : pyStrLt (normalizeTime endT) (normalizeTime startT) = false) :
    time_within_range (normalizeTime startT) startT endT = true ∧
      time_within_range (normalizeTime endT) startT endT = true := by
  have hle : pyStrLe (normalizeTime startT) (normalizeTime endT) = true :=
    pyStrLe_of_not_lt h
  constructor
  · simp [time_within_range, h, pyStrLe_self, hle]
  · simp [time_within_range, h, pyStrLe_self, hle]

/-- Witness for C9 at the window `14:00`–`16:00`. -/
theorem c9_inclusive_endpoints_witness :
    pyStrLt (normalizeTime "16:00") (normalizeTime "14:00") = false ∧
      (time_within_range (normalizeTime "14:00") "14:00" "16:00" = true ∧
        time_within_range (normalizeTime "16:00") "14:00" "16:00" = true) :=
  ⟨by decide, c9_non_overnight_window_inclusive_endpoints "14:00" "16:00" (by decide)⟩

/-! ### Claim C10 — unrecognised sensor comparisons -/

/-- C10: for every sensor rule whose `comparison` is neither `"<"` nor
`">="` and every successfully obtained sensor reading, the evaluation body
raises nothing and returns not-matched with an empty action list (and so does
the exception-catching wrapper). -/
theorem c10_unknown_comparison_not_matched
    (sensorEnv : String → Option (Option Rat)) (c : SensorCondition)
    (actions : List Action) (name : String) (v : Rat)
    (hs : c.sensor = some name) (hn : name ≠ "")
    (hr : sensorEnv name = some (some v))
    (h1 : c.comparison ≠ some "<") (h2 : c.comparison ≠ some ">=") :
    evalSensorBody sensorEnv (some c) actions = .ok (false, []) ∧
      evalSensorCondition sensorEnv (some c) actions = (false, []) := by
  have hbody : evalSensorBody sensorEnv (some c) actions = .ok (false, []) := by
    simp only [evalSensorBody, hs, hr]
    rw [if_neg hn, if_neg h1, if_neg h2]
  exact ⟨hbody, by simp [evalSensorCondition, hbody]⟩

/-- Witness for C10: a `"=="` comparison on a sensor that reads `30`. -/
theorem c10_unknown_comparison_witness :
    ({ sensor := some "temperature", comparison := some "==",
       value := some 25 } : SensorCondition).sensor = some "temperature" ∧
      evalSensorCondition
        (fun n => if n = "temperature" then some (some 30) else none)
        (some { sensor := some "temperature", comparison := some "==", value := some 25 })
        [{ red := some 100 }] = (false, []) :=
  ⟨rfl, (c10_unknown_comparison_not_matched
    (fun n => if n = "temperature" then some (some 30) else none)
    { sensor := some "temperature", comparison := some "==", value := some 25 }
    [{ red := some 100 }] "temperature" 30 rfl (by decide) (by decide)
    (by decide) (by decide)).2⟩

/-! ### Claim C1 — nested (child) rules and their baseline

The concrete program below has no `default_actions`, one always-matching
time rule setting `red := 100`, and inside it one always-matching child rule
setting `blue := 50`.  The spec's depth-precedence rule says the child is
resolved against the parent's merged result, so the expected outcome is
`red = 100, blue = 50`.  The source instead restarts the nested resolution
from `default_actions` (the recursive `_determine_desired_conditions` call
ignores the `desired["rgbw"]` / `desired["fan"]` arguments it is handed and
rebuilds its baseline from `self.program_json`), so the parent's `red = 100`
is discarded and the result is `red = 0, blue = 50`. -/

/-- C1 (code bug evaluation): at 15:00 both windows match, yet the resolved
state has `red = 0` — the child was resolved against the program defaults
(all-zero here), not against the parent's merged `red = 100`. -/
theorem c1_child_baseline_is_program_defaults :
    (determineDesired [] c1Sensors "15:00:00" "2026-01-01" false c1Loops none).1 =
      { rgbw := [some 0, some 0, some 50, some 0], fan := some 0,
        target_watts := none } := by decide

/-! ### Claim C2 — the sensor-condition cache -/

/-- Counterexample to C2: there is no per-rule cache.  A `check_sensors=true`
resolve matches rule 1 (`red = 100`), but rule 2's non-match overwrites the
single shared `cached_sensor_conditions` slot with `None`; the following
`check_sensors=false` resolve therefore does *not* reuse rule 1's most recent
verdict and yields `red = 0`. -/
theorem c2_no_per_rule_cache_counterexample :
    (determineDesired [] c2Sensors "12:00:00" "2026-01-01" true c2Loops none).1.rgbw
        = [some 100, some 0, some 0, some 0] ∧
      (determineDesired [] c2Sensors "12:00:00" "2026-01-01" true c2Loops none).2 = none ∧
      (determineDesired [] c2Sensors "12:00:00" "2026-01-01" false c2Loops
          (determineDesired [] c2Sensors "12:00:00" "2026-01-01" true c2Loops none).2).1.rgbw
        = [some 0, some 0, some 0, some 0] := by
  refine ⟨by decide, by decide, by decide⟩

/-- With `check_sensors=false`, folding a loop list neither consults the
sensor functions nor changes the cache. -/
theorem resolveLoops_false_stable (df : List Action)
    (f g : String → Option (Option Rat)) (now today : String) (t : LoopTree) :
    ∀ (d : Conditions) (c : Option Conditions),
      resolveLoops df f now today false t d c
          = resolveLoops df g now today false t d c ∧
        (resolveLoops df f now today false t d c).2 = c := by
  induction t with
  | nil => exact fun d c => ⟨rfl, rfl⟩
  | consSensor cond acts rest ihr =>
      intro d c
      cases c with
      | none => exact ihr d none
      | some sc => exact ihr (mergeConditions d sc) (some sc)
  | consTime s e acts hasNested nested rest ihn ihr =>
      intro d c
      by_cases ht : time_within_range now (s.getD "00:00") (e.getD "23:59") = true
      · cases hasNested with
        | false =>
            have h := ihr (mergeConditions d (extractConditions acts)) c
            simpa [resolveLoops, ht] using h
        | true =>
            obtain ⟨hne, hnc⟩ := ihn (initialDesired df) c
            have h2 := ihr
              (resolveLoops df f now today false nested (initialDesired df) c).1
              (resolveLoops df f now today false nested (initialDesired df) c).2
            simp only [resolveLoops, if_pos ht, if_true]
            refine ⟨?_, ?_⟩
            · rw [← hne]
              exact h2.1
            · rw [h2.2, hnc]
      · have h := ihr d c
        simpa [resolveLoops, ht] using h
  | consDate s e acts hasNested nested rest ihn ihr =>
      intro d c
      by_cases ht : date_within_range today (s.getD today) e = true
      · cases hasNested with
        | false =>
            have h := ihr (mergeConditions d (extractConditions acts)) c
            simpa [resolveLoops, ht] using h
        | true =>
            obtain ⟨hne, hnc⟩ := ihn (initialDesired df) c
            have h2 := ihr
              (resolveLoops df f now today false nested (initialDesired df) c).1
              (resolveLoops df f now today false nested (initialDesired df) c).2
            simp only [resolveLoops, if_pos ht, if_true]
            refine ⟨?_, ?_⟩
            · rw [← hne]
              exact h2.1
            · rw [h2.2, hnc]
      · have h := ihr d c
        simpa [resolveLoops, ht] using h
  | consOther rest ihr => exact fun d c => ihr d c

/-- C2 (amended): the engine keeps a *single* shared
`cached_sensor_conditions` slot (holding the last-evaluated sensor rule's
verdict), not one per rule.  What does hold: a `check_sensors=false` resolve
never consults the sensors and never changes the cache, so resolving twice in
a row with `check_sensors=false` yields identical results even if every
sensor value changes between the calls. -/
theorem c2_single_shared_cache_stable (df : List Action)
    (f g : String → Option (Option Rat)) (now today : String)
    (loops : LoopTree) (cache : Option Conditions) :
    determineDesired df f now today false loops cache
        = determineDesired df g now today false loops cache ∧
      (determineDesired df f now today false loops cache).2 = cache ∧
      determineDesired df g now today false loops
          (determineDesired df f now today false loops cache).2
        = determineDesired df f now today false loops cache := by
  obtain ⟨he, hc⟩ :=
    resolveLoops_false_stable df f g now today loops (initialDesired df) cache
  unfold determineDesired
  exact ⟨he, hc, by rw [hc, ← he]⟩

/-! ### Claim C4 — full population of the resolved state -/

/-- Counterexample to C4: with `default_actions = [{"red": 10}]` and no
loops, the resolved state has `green`, `blue`, `white` and `fan` all Python
`None` — merging starts from what `default_actions` *sets*, not from zeros,
so the output is not always fully populated. -/
theorem c4_partial_defaults_counterexample :
    (determineDesired [{ red := some 10 }] c1Sensors "15:00:00" "2026-01-01"
        false .nil none).1
      = { rgbw := [some 10, none, none, none], fan := none,
          target_watts := none } := by decide

/-- Merging preserves full population of the running `desired` state. -/
theorem mergeConditions_populated (cur new : Conditions)
    (h : populatedB cur = true) : populatedB (mergeConditions cur new) = true := by
  simp only [populatedB, Bool.and_eq_true, beq_iff_eq, List.all_eq_true] at h ⊢
  obtain ⟨⟨hlen, hall⟩, hfan⟩ := h
  refine ⟨⟨?_, ?_⟩, ?_⟩
  · simp only [mergeConditions]
    by_cases hb : ((List.range 4).any fun i => (new.rgbw.getD i none).isSome) = true
    · rw [if_pos hb]
      simp
    · rw [if_neg hb]
      exact hlen
  · simp only [mergeConditions]
    by_cases hb : ((List.range 4).any fun i => (new.rgbw.getD i none).isSome) = true
    · rw [if_pos hb]
      intro x hx
      obtain ⟨i, hi, rfl⟩ := List.mem_map.mp hx
      have hi4 : i < 4 := List.mem_range.mp hi
      cases hn : new.rgbw.getD i none with
      | some v => simp [hn]
      | none =>
          simp only [hn]
          apply hall
          have hilen : i < cur.rgbw.length := by omega
          rw [List.getD_eq_getElem?_getD, List.getElem?_eq_getElem hilen]
          exact List.getElem_mem hilen
    · rw [if_neg hb]
      exact hall
  · simp only [mergeConditions]
    cases hn : new.fan with
    | some v => simp [hn]
    | none =>
        simp only [hn]
        exact hfan

/-- If the starting conditions of a resolve are fully populated, every folded
loop keeps them fully populated (children restart from `initialDesired df`,
which is populated by hypothesis). -/
theorem resolveLoops_populated (df : List Action)
    (f : String → Option (Option Rat)) (now today : String) (cs : Bool)
    (hdf : populatedB (initialDesired df) = true) (t : LoopTree) :
    ∀ (d : Conditions) (c : Option Conditions), populatedB d = true →
      populatedB (resolveLoops df f now today cs t d c).1 = true := by
  induction t with
  | nil => exact fun d c hd => hd
  | consSensor cond acts rest ihr =>
      intro d c hd
      cases cs with
      | true =>
          rcases hm : evalSensorCondition f cond acts with ⟨mt, acts'⟩
          cases mt with
          | false =>
              simp only [resolveLoops, if_true, hm]
              exact ihr d none hd
          | true =>
              simp only [resolveLoops, if_true, hm]
              exact ihr _ _ (mergeConditions_populated d _ hd)
      | false =>
          cases c with
          | none => exact ihr d none hd
          | some sc => exact ihr _ _ (mergeConditions_populated d sc hd)
  | consTime s e acts hasNested nested rest ihn ihr =>
      intro d c hd
      by_cases ht : time_within_range now (s.getD "00:00") (e.getD "23:59") = true
      · cases hasNested with
        | false =>
            simp only [resolveLoops, if_pos ht, if_false]
            exact ihr _ _ (mergeConditions_populated d _ hd)
        | true =>
            simp only [resolveLoops, if_pos ht, if_true]
            exact ihr _ _ (ihn _ _ hdf)
      · simp only [resolveLoops, if_neg ht]
        exact ihr d c hd
  | consDate s e acts hasNested nested rest ihn ihr =>
      intro d c hd
      by_cases ht : date_within_range today (s.getD today) e = true
      · cases hasNested with
        | false =>
            simp only [resolveLoops, if_pos ht, if_false]
            exact ihr _ _ (mergeConditions_populated d _ hd)
        | true =>
            simp only [resolveLoops, if_pos ht, if_true]
            exact ihr _ _ (ihn _ _ hdf)
      · simp only [resolveLoops, if_neg ht]
        exact ihr d c hd
  | consOther rest ihr => exact fun d c hd => ihr d c hd

/-- C4 (amended): the resolved output is fully populated whenever the
*starting* conditions are — that is, when `default_actions` is absent (the
all-zero literal) or when its actions set all four channels and the fan.
When `default_actions` sets only some fields, the unset fields stay `None`
(see the counterexample). -/
theorem c4_populated_when_defaults_populated (df : List Action)
    (f : String → Option (Option Rat)) (now today : String) (cs : Bool)
    (loops : LoopTree) (cache : Option Conditions)
    (hdf : populatedB (initialDesired df) = true) :
    populatedB (determineDesired df f now today cs loops cache).1 = true :=
  resolveLoops_populated df f now today cs hdf loops (initialDesired df) cache hdf

/-- Witness for C4's amended theorem: a program with no `default_actions`
(all-zero start) resolving the C1 loops. -/
theorem c4_populated_witness :
    populatedB (initialDesired []) = true ∧
      populatedB (determineDesired [] c1Sensors "15:00:00" "2026-01-01"
          false c1Loops none).1 = true :=
  ⟨by decide, c4_populated_when_defaults_populated [] c1Sensors "15:00:00"
    "2026-01-01" false c1Loops none (by decide)⟩

/-! ### Claim C3 — writes on an unchanged tick -/

/-- C3 (code bug evaluation): the resolved state (`rgbw = [8, 0, 24, 92]`,
`fan = 0`, no `target_watts`) equals the applied actuator state
(`cleanState` channels `(8, 0, 24, 92)`, fan `0`), yet the tick still issues
a light write: `desired["rgbw"]` is a Python `list` and `light.rgbw()`
returns a `tuple`, so the `desired["rgbw"] != current_rgbw` guard is always
true and the RGBW channels are rewritten every tick.  The fan duty, compared
as `int != int`, is correctly left untouched. -/
theorem c3_unchanged_tick_still_writes_lights :
    applyConditions
        { rgbw := [some 8, some 0, some 24, some 92], fan := some 0,
          target_watts := none }
        cleanState 0 steadyEnv
      = some (cleanState, 0,
          [Effect.lightWrite (some 8) (some 0) (some 24) (some 92)]) := by
  with_unfolding_all decide

/-! ### Claim C5 — the power-target memo -/

/-- C5 (code bug evaluation): with a valid memo for 10 W, a repeat
`set_rgbw_with_power_target(8, 0, 24, 92, 10)` call performs no power
measurement and re-asserts the remembered RGBW (the only effect is the one
light write), but the `self.rgbw(...)` call clears
`_last_power_target` / `_last_power_result` *before* the
`return self._last_power_result` line, so the call returns Python `None`
instead of the remembered successful result and the memo is wiped. -/
theorem c5_memo_hit_returns_none_and_wipes_memo :
    converge memoState steadyEnv 8 0 24 92 10 (1/2) 5
      = (none, cleanState,
          [Effect.lightWrite (some 8) (some 0) (some 24) (some 92)]) := by
  with_unfolding_all decide

/-! ### Claim C7 — fail-fast preconditions of `set_rgbw_with_power_target` -/

/-- Counterexample to C7: a call whose supply voltage reads 15 V (below the
20 V minimum) does *not* return `InsufficientSupply` when the memo holds a
successful result for the same target — the memo short-circuit runs first
and the call returns Python `None` without ever reading the voltage. -/
theorem c7_memo_bypasses_voltage_check :
    (converge memoState lowVoltEnv 8 0 24 92 10 (1/2) 5).1 = none := by
  with_unfolding_all decide

/-- Under the memo invariant, a target below the 2 W minimum can never hit
the memo (successful memos are only stored for targets that passed the
`target_watts < 2` guard). -/
theorem memoHit_false_of_small (st : LightState) (target : Rat)
    (hinv : MemoInv st) (hlt : target < 2) : memoHit st target = false := by
  by_contra h
  rw [Bool.not_eq_false] at h
  unfold memoHit at h
  rw [Bool.and_eq_true, decide_eq_true_iff] at h
  obtain ⟨h1, h2⟩ := h
  rcases hr : st.lastPowerResult with _ | res
  · rw [hr] at h2
    simp at h2
  · rw [hr] at h2
    have := hinv target res h1 hr h2
    linarith

/-- C7 (amended): `set_rgbw_with_power_target` fails fast with no iteration —
on any reachable controller state (memo invariant), `target_watts <= 0`
returns `InvalidTarget` and `0 < target_watts < 2` returns
`TargetTooLowForMeasurement`, both with no actuator write, no voltage read
and no power measurement; and a call with `target_watts >= 2` that is not
short-circuited by a valid same-target memo, whose supply voltage is
unavailable or below 20 V, returns `InsufficientSupply` after one voltage
read and one fallback write of `start_rgbw`, with no power measurement. -/
theorem c7_fail_fast_preconditions (st : LightState) (env : PowerEnv)
    (r g b w : Int) (target tol : Rat) (maxIter : Nat) (hinv : MemoInv st) :
    (target ≤ 0 →
      converge st env r g b w target tol maxIter
        = (some (invalidTargetResult r g b w), st, [])) ∧
    (0 < target → target < 2 →
      converge st env r g b w target tol maxIter
        = (some (tooLowResult r g b w), st, [])) ∧
    (2 ≤ target → memoHit st target = false →
      (env.voltage = none ∨ ∃ v, env.voltage = some v ∧ v < 20) →
      converge st env r g b w target tol maxIter
        = (some (insufficientResult r g b w),
           (lightRgbw st (some r) (some g) (some b) (some w)).1,
           Effect.readVoltage :: (lightRgbw st (some r) (some g) (some b) (some w)).2)) := by
  refine ⟨?_, ?_, ?_⟩
  · intro h0
    have hm : memoHit st target = false :=
      memoHit_false_of_small st target hinv (by linarith)
    unfold converge
    rw [if_neg (by simp [hm]), if_pos h0]
  · intro h0 h2
    have hm : memoHit st target = false :=
      memoHit_false_of_small st target hinv h2
    unfold converge
    rw [if_neg (by simp [hm]), if_neg (by linarith), if_pos h2]
  · intro h2 hm hv
    unfold converge
    rw [if_neg (by simp [hm]), if_neg (by linarith), if_neg (by linarith)]
    rcases hv with hnone | ⟨v, hev, hv20⟩
    · rw [hnone]
    · rw [hev]
      simp only [if_pos hv20]

/-- Witness for C7's amended theorem: a memo-free controller at 15 V supply
with target 10 W. -/
theorem c7_fail_fast_witness :
    MemoInv cleanState ∧
      (((10 : Rat) ≤ 0 →
        converge cleanState lowVoltEnv 8 0 24 92 10 (1/2) 5
          = (some (invalidTargetResult 8 0 24 92), cleanState, [])) ∧
      (0 < (10 : Rat) → (10 : Rat) < 2 →
        converge cleanState lowVoltEnv 8 0 24 92 10 (1/2) 5
          = (some (tooLowResult 8 0 24 92), cleanState, [])) ∧
      ((2 : Rat) ≤ 10 → memoHit cleanState 10 = false →
        (lowVoltEnv.voltage = none ∨ ∃ v, lowVoltEnv.voltage = some v ∧ v < 20) →
        converge cleanState lowVoltEnv 8 0 24 92 10 (1/2) 5
          = (some (insufficientResult 8 0 24 92),
             (lightRgbw cleanState (some 8) (some 0) (some 24) (some 92)).1,
             Effect.readVoltage ::
               (lightRgbw cleanState (some 8) (some 0) (some 24) (some 92)).2))) := by
  have hinv : MemoInv cleanState := by
    intro t res h1 _ _
    simp [cleanState] at h1
  exact ⟨hinv, c7_fail_fast_preconditions cleanState lowVoltEnv 8 0 24 92 10 (1/2) 5 hinv⟩

/-! ### Claim C6 — bounded termination of the convergence loop -/

/-- Every run of the convergence loop with a positive fuel budget (or a
remembered last reading when the budget is zero) returns exactly one result,
of one of the four terminal shapes, and never reports more than
`max_iterations` iterations. -/
theorem convergeLoop_shape (env : PowerEnv) (target tol : Rat) (maxIter : Nat) :
    ∀ (fuel it : Nat) (st : LightState) (cr cg cb cw : Int) (lp : Option Rat),
      it + fuel = maxIter → (fuel = 0 → lp.isSome = true) →
      ∃ res : ConvergeResult,
        (convergeLoop env target tol maxIter st cr cg cb cw it lp fuel).1 = some res ∧
        (res.success = true ∨
          (∃ i, res.error = some (.noValidReading i)) ∨
          res.error = some .hardwareLimit ∨
          res.error = some (.maxIterations maxIter)) ∧
        (∀ k, res.iterations = some k → k ≤ maxIter) := by
  intro fuel
  induction fuel with
  | zero =>
      intro it st cr cg cb cw lp hsum hlp
      cases lp with
      | none => simpa using hlp rfl
      | some ap =>
          refine ⟨maxIterResult maxIter cr cg cb cw ap target, rfl, ?_, ?_⟩
          · right; right; right; rfl
          · intro k hk
            simp only [maxIterResult, Option.some.injEq] at hk
            omega
  | succ fuel ih =>
      intro it st cr cg cb cw lp hsum hlp
      rcases hm : measurePower env it with ⟨p?, n⟩
      cases p? with
      | none =>
          refine ⟨noReadingResult it cr cg cb cw, ?_, ?_, ?_⟩
          · simp [convergeLoop, hm]
          · right; left; exact ⟨it + 1, rfl⟩
          · intro k hk
            simp [noReadingResult] at hk
      | some p =>
          by_cases htol : ratAbs (p - target) ≤ tol
          · refine ⟨successResult it cr cg cb cw p target, ?_, ?_, ?_⟩
            · simp only [convergeLoop, hm]
              rw [if_pos htol]
            · left; rfl
            · intro k hk
              simp only [successResult, Option.some.injEq] at hk
              omega
          · by_cases hp : (0 : Rat) < p
            · by_cases hhw : scaleChan 160 cr (target / p) = cr ∧
                scaleChan 71 cg (target / p) = cg ∧
                scaleChan 75 cb (target / p) = cb ∧
                scaleChan 117 cw (target / p) = cw
              · refine ⟨hwLimitResult it cr cg cb cw p target, ?_, ?_, ?_⟩
                · simp only [convergeLoop, hm]
                  rw [if_neg htol, if_pos hp, if_pos hhw]
                · right; right; left; rfl
                · intro k hk
                  simp only [hwLimitResult, Option.some.injEq] at hk
                  omega
              · obtain ⟨res, hres, hsh, hbd⟩ := ih (it + 1)
                  (lightRgbw st (some (scaleChan 160 cr (target / p)))
                    (some (scaleChan 71 cg (target / p)))
                    (some (scaleChan 75 cb (target / p)))
                    (some (scaleChan 117 cw (target / p)))).1
                  (scaleChan 160 cr (target / p)) (scaleChan 71 cg (target / p))
                  (scaleChan 75 cb (target / p)) (scaleChan 117 cw (target / p))
                  (some p) (by omega) (fun _ => rfl)
                refine ⟨res, ?_, hsh, hbd⟩
                simp only [convergeLoop, hm]
                rw [if_neg htol, if_pos hp, if_neg hhw]
                simpa using hres
            · obtain ⟨res, hres, hsh, hbd⟩ :=
                ih (it + 1) st cr cg cb cw (some p) (by omega) (fun _ => rfl)
              refine ⟨res, ?_, hsh, hbd⟩
              simp only [convergeLoop, hm]
              rw [if_neg htol, if_neg hp]
              simpa using hres

/-- C6: every `set_rgbw_with_power_target` call that passes the up-front
preconditions (no memo hit, target at least 2 W, supply voltage at least
20 V, an initial power reading, a positive iteration budget) terminates with
exactly one result — success or one of the three loop-terminal failures —
after at most `max_iterations` iterations; and whenever an iteration's
scaled-and-clamped channels are byte-identical to the current ones, the loop
returns `HardwareLimitReached` with that iteration's measured power. -/
theorem c6_converge_bounded_termination (st : LightState) (env : PowerEnv)
    (r g b w : Int) (target tol : Rat) (maxIter : Nat) (v p0 : Rat)
    (hm : memoHit st target = false) (ht : 2 ≤ target)
    (hv : env.voltage = some v) (hv20 : ¬ v < 20)
    (hp : env.initialPower = some p0) (hmi : 0 < maxIter) :
    C6Conclusion st env r g b w target tol maxIter := by
  constructor
  · obtain ⟨res, hres, hsh, hbd⟩ :=
      convergeLoop_shape env target tol maxIter maxIter 0
        (lightRgbw st (some r) (some g) (some b) (some w)).1 r g b w none
        (by omega) (fun h0 => absurd h0 (by omega))
    refine ⟨res, ?_, hsh, hbd⟩
    unfold converge
    rw [if_neg (by simp [hm]), if_neg (by linarith), if_neg (by linarith)]
    simp only [hv, hp]
    rw [if_neg hv20]
    simpa using hres
  · intro st' cr cg cb cw it fuel lp p n hmeas htol hp' h1 h2 h3 h4
    simp only [convergeLoop, hmeas]
    rw [if_neg htol, if_pos hp', if_pos ⟨h1, h2, h3, h4⟩]

/-- Witness for C6 at a healthy environment: target 5 W, tolerance 0.5 W,
five iterations, memo-free controller. -/
theorem c6_converge_witness :
    memoHit cleanState 5 = false ∧ (2 : Rat) ≤ 5 ∧
      C6Conclusion cleanState steadyEnv 10 10 10 10 5 (1/2) 5 :=
  ⟨by decide, by decide,
    c6_converge_bounded_termination cleanState steadyEnv 10 10 10 10 5 (1/2) 5 24 5
      (by decide) (by decide) rfl (by decide) rfl (by decide)⟩

end GbeBox
